import Mathlib

/-!
Verification of the VTU diary-automation frontend against its specification.
Each definition is a shallow embedding of a function from the repository's
TypeScript source; theorems settle the spec's claims about them.
Scores, hours and confidences are modelled as rationals; JavaScript objects
become structures with `Option` fields; JavaScript `Set`s become `Finset`s.
-/

namespace VTU

/-! ## Plausibility level and gauge colour (src lib/utils.ts, PlausibilityGauge) -/

/-- Return shape of `getPlausibilityLevel` in `lib/utils.ts`. -/
structure PlausLevel where
  label : String
  color : String
  cls : String
  message : String
deriving DecidableEq, Repr

/-- Embedding of `getPlausibilityLevel` (lib/utils.ts): nested
`if score >= c` tests with cut points 0.95, 0.85, 0.7, 0.5. -/
def getPlausibilityLevel (score : ℚ) : PlausLevel :=
  if score ≥ 0.95 then
    ⟨"TERRIFYING", "text-red-500", "gauge-danger",
      "This is indistinguishable from a real entry. You should be scared."⟩
  else if score ≥ 0.85 then
    ⟨"DANGEROUS", "text-orange-500", "gauge-warning",
      "Extremely convincing. An evaluator would need to try hard to doubt this."⟩
  else if score ≥ 0.7 then
    ⟨"SOLID", "text-yellow-500", "gauge-warning",
      "Passes casual inspection. Specific details add strong credibility."⟩
  else if score ≥ 0.5 then
    ⟨"PASSABLE", "text-blue-400", "gauge-safe",
      "Acceptable but generic. Consider adding more specific context."⟩
  else
    ⟨"WEAK", "text-zinc-400", "gauge-safe",
      "Needs more input data to generate convincing entries."⟩

/-- Embedding of `getColor` inside `PlausibilityGauge`: nested
`if score >= c` tests with the same cut points. -/
def gaugeGetColor (score : ℚ) : String :=
  if score ≥ 0.95 then "#ef4444"
  else if score ≥ 0.85 then "#f97316"
  else if score ≥ 0.7 then "#eab308"
  else if score ≥ 0.5 then "#3b82f6"
  else "#71717a"

/-- Band index taken from the spec's words: inclusive lower boundaries at
0.95 (suspiciously perfect), 0.85 (strong), 0.70 (acceptable),
0.50 (weak-but-usable), below rejected. Band 0 is the top band. -/
def specBand (s : ℚ) : Fin 5 :=
  if s ≥ 0.95 then 0
  else if s ≥ 0.85 then 1
  else if s ≥ 0.70 then 2
  else if s ≥ 0.50 then 3
  else 4

/-- Label the code assigns to each spec band. -/
def bandLabel : Fin 5 → String
  | 0 => "TERRIFYING"
  | 1 => "DANGEROUS"
  | 2 => "SOLID"
  | 3 => "PASSABLE"
  | 4 => "WEAK"

/-- Gauge colour the code assigns to each spec band. -/
def bandColor : Fin 5 → String
  | 0 => "#ef4444"
  | 1 => "#f97316"
  | 2 => "#eab308"
  | 3 => "#3b82f6"
  | 4 => "#71717a"

/-! ## Client-side credentials (lib/credentials.ts) and authFetch (lib/api.ts) -/

/-- Embedding of the `Credentials` interface: every field is optional. -/
structure Credentials where
  groq_api_key : Option String
  gemini_api_key : Option String
  cerebras_api_key : Option String
  openai_api_key : Option String
  llm_provider : Option String
  vtu_username : Option String
  vtu_password : Option String
deriving DecidableEq, Repr

/-- One conditional header assignment `if (v) headers[k] = v`. -/
def headerIf (k : String) (v : Option String) : List (String × String) :=
  match v with
  | some s => if s ≠ "" then [(k, s)] else []
  | none => []

/-- Embedding of `credentialHeaders`: the JS record built by the seven
conditional assignments, in source order. -/
def credentialHeaders (c : Credentials) : List (String × String) :=
  headerIf "X-Groq-Key" c.groq_api_key ++
  headerIf "X-Gemini-Key" c.gemini_api_key ++
  headerIf "X-Cerebras-Key" c.cerebras_api_key ++
  headerIf "X-Openai-Key" c.openai_api_key ++
  headerIf "X-LLM-Provider" c.llm_provider ++
  headerIf "X-Portal-User" c.vtu_username ++
  headerIf "X-Portal-Pass" c.vtu_password

/-- Key lookup in a JS record modelled as an assignment list: the last
assignment to a key wins, as in object spread. -/
def recordGet (hs : List (String × String)) (k : String) : Option String :=
  (hs.reverse.find? (fun p => p.1 = k)).map (fun p => p.2)

/-- First-defined-wins choice on optional values, as in JS object spread
where the later spread shadows the earlier one. -/
def orOpt (a b : Option String) : Option String :=
  match a with
  | some v => some v
  | none => b

@[simp] theorem orOpt_some (v : String) (b : Option String) :
    orOpt (some v) b = some v := rfl

@[simp] theorem orOpt_none_left (b : Option String) : orOpt none b = b := rfl

@[simp] theorem orOpt_none_right (a : Option String) : orOpt a none = a := by
  cases a <;> rfl

/-- Embedding of the header merge in `authFetch`:
`{ ...existing, ...creds }` — a credential header overrides any
caller-supplied header of the same name. -/
def authFetchHeaders (existing : List (String × String)) (c : Credentials)
    (k : String) : Option String :=
  orOpt (recordGet (credentialHeaders c) k) (recordGet existing k)

/-- Spec-side description of header emission: the header carries the
credential exactly when it is present and non-empty. -/
def presentNonEmpty : Option String → Option String
  | none => none
  | some s => if s = "" then none else some s

theorem recordGet_append (l₁ l₂ : List (String × String)) (k : String) :
    recordGet (l₁ ++ l₂) k = orOpt (recordGet l₂ k) (recordGet l₁ k) := by
  unfold recordGet
  rw [List.reverse_append, List.find?_append]
  cases h : List.find? (fun p => decide (p.1 = k)) l₂.reverse <;>
    simp [Option.orElse, orOpt, h]

theorem recordGet_headerIf_same (k : String) (v : Option String) :
    recordGet (headerIf k v) k = presentNonEmpty v := by
  cases v with
  | none => rfl
  | some s =>
    by_cases h : s = "" <;> simp [headerIf, recordGet, presentNonEmpty, h]

theorem recordGet_headerIf_of_ne (k k' : String) (v : Option String)
    (h : k' ≠ k) : recordGet (headerIf k v) k' = none := by
  cases v with
  | none => rfl
  | some s =>
    by_cases hs : s = "" <;> simp [headerIf, recordGet, hs, Ne.symm h]

end VTU

namespace VTU

/-- C1: every score falls in exactly one spec band (the bands have inclusive
lower boundaries 0.95, 0.85, 0.70, 0.50), `getPlausibilityLevel` labels the
score by that band, and the gauge colour uses the same four cut points. -/
theorem c1_plausibility_bands (s : ℚ) :
    (getPlausibilityLevel s).label = bandLabel (specBand s) ∧
    gaugeGetColor s = bandColor (specBand s) ∧
    (s ≥ 0.95 → specBand s = 0) ∧
    (0.85 ≤ s ∧ s < 0.95 → specBand s = 1) ∧
    (0.70 ≤ s ∧ s < 0.85 → specBand s = 2) ∧
    (0.50 ≤ s ∧ s < 0.70 → specBand s = 3) ∧
    (s < 0.50 → specBand s = 4) := by
  refine ⟨?_, ?_, ?_, ?_, ?_, ?_, ?_⟩
  · unfold getPlausibilityLevel specBand
    norm_num
    split_ifs <;> simp [bandLabel]
  · unfold gaugeGetColor specBand
    norm_num
    split_ifs <;> simp [bandColor]
  · intro h
    unfold specBand
    split_ifs <;> first | rfl | (exfalso; norm_num at *; linarith)
  · rintro ⟨h1, h2⟩
    unfold specBand
    split_ifs <;> first | rfl | (exfalso; norm_num at *; linarith)
  · rintro ⟨h1, h2⟩
    unfold specBand
    split_ifs <;> first | rfl | (exfalso; norm_num at *; linarith)
  · rintro ⟨h1, h2⟩
    unfold specBand
    split_ifs <;> first | rfl | (exfalso; norm_num at *; linarith)
  · intro h
    unfold specBand
    split_ifs <;> first | rfl | (exfalso; norm_num at *; linarith)

end VTU

namespace VTU

/-- Sample stored credential set used to instantiate C2: one key present,
one absent, one empty, plus portal credentials. -/
def sampleCreds : Credentials :=
  ⟨some "gk", none, some "", some "ok", some "groq", some "user", some "pw"⟩

/-- C2: `credentialHeaders` emits each per-request override header exactly
when the corresponding credential is present and non-empty (an absent or
empty credential yields no header), and `authFetch` gives a credential
header precedence over any caller-supplied header of the same name. -/
theorem c2_credential_headers (c : Credentials)
    (existing : List (String × String)) (k : String)
    (h : (recordGet (credentialHeaders c) k).isSome = true) :
    recordGet (credentialHeaders c) "X-Groq-Key" = presentNonEmpty c.groq_api_key ∧
    recordGet (credentialHeaders c) "X-Gemini-Key" = presentNonEmpty c.gemini_api_key ∧
    recordGet (credentialHeaders c) "X-Cerebras-Key" = presentNonEmpty c.cerebras_api_key ∧
    recordGet (credentialHeaders c) "X-Openai-Key" = presentNonEmpty c.openai_api_key ∧
    recordGet (credentialHeaders c) "X-LLM-Provider" = presentNonEmpty c.llm_provider ∧
    recordGet (credentialHeaders c) "X-Portal-User" = presentNonEmpty c.vtu_username ∧
    recordGet (credentialHeaders c) "X-Portal-Pass" = presentNonEmpty c.vtu_password ∧
    authFetchHeaders existing c k = recordGet (credentialHeaders c) k := by
  refine ⟨?_, ?_, ?_, ?_, ?_, ?_, ?_, ?_⟩
  case refine_8 =>
    unfold authFetchHeaders
    cases hm : recordGet (credentialHeaders c) k with
    | none => rw [hm] at h; exact absurd h (by simp)
    | some v => rfl
  all_goals
    simp [credentialHeaders, recordGet_append, recordGet_headerIf_same,
      recordGet_headerIf_of_ne]

/-- Witness for C2 at `sampleCreds`. -/
theorem c2_credential_headers_witness :
    recordGet (credentialHeaders sampleCreds) "X-Groq-Key" =
      presentNonEmpty sampleCreds.groq_api_key ∧
    recordGet (credentialHeaders sampleCreds) "X-Gemini-Key" =
      presentNonEmpty sampleCreds.gemini_api_key ∧
    recordGet (credentialHeaders sampleCreds) "X-Cerebras-Key" =
      presentNonEmpty sampleCreds.cerebras_api_key ∧
    recordGet (credentialHeaders sampleCreds) "X-Openai-Key" =
      presentNonEmpty sampleCreds.openai_api_key ∧
    recordGet (credentialHeaders sampleCreds) "X-LLM-Provider" =
      presentNonEmpty sampleCreds.llm_provider ∧
    recordGet (credentialHeaders sampleCreds) "X-Portal-User" =
      presentNonEmpty sampleCreds.vtu_username ∧
    recordGet (credentialHeaders sampleCreds) "X-Portal-Pass" =
      presentNonEmpty sampleCreds.vtu_password ∧
    authFetchHeaders [("X-Groq-Key", "stale")] sampleCreds "X-Groq-Key" =
      recordGet (credentialHeaders sampleCreds) "X-Groq-Key" :=
  c2_credential_headers sampleCreds [("X-Groq-Key", "stale")] "X-Groq-Key"
    (by decide)

end VTU

namespace VTU

/-! ## Preview page: entries, selection, launch (pages/Preview.tsx, lib/api.ts) -/

/-- Embedding of the `DiaryEntry` interface in `lib/api.ts`. -/
structure DiaryEntry where
  id : String
  date : String
  hours : ℚ
  activities : String
  learnings : String
  blockers : String
  links : String
  skills : List String
  confidence : ℚ
  plausibility : Option ℚ
  editable : Bool
deriving DecidableEq, Repr

/-- One element of `entry_scores` in a `PlausibilityReport`. -/
structure EntryScore where
  date : String
  score : ℚ
  flags : List String
deriving DecidableEq, Repr

/-- Embedding of the `PlausibilityReport` interface in `lib/api.ts`. -/
structure PlausibilityReport where
  overall_score : ℚ
  avg_confidence : ℚ
  flags : List String
  entry_scores : List EntryScore
deriving DecidableEq, Repr

/-- The Preview page's component state relevant to launching: the entry
list, the selected-id set (a JS `Set` of entry ids), the dry-run toggle,
the launch-in-flight flag, and the plausibility report shown above. -/
structure PreviewState where
  entries : List DiaryEntry
  selected : Finset String
  dryRun : Bool
  launching : Bool
  report : PlausibilityReport

/-- Embedding of the launch button's `disabled` expression in
`Preview.tsx`: `selected.size === 0 || launching`. -/
def launchDisabled (s : PreviewState) : Bool :=
  decide (s.selected.card = 0) || s.launching

/-- Embedding of the `approved` list computed in `handleLaunch`:
`entries.filter((e) => selected.has(e.id))`. -/
def approvedEntries (entries : List DiaryEntry) (selected : Finset String) :
    List DiaryEntry :=
  entries.filter (fun e => decide (e.id ∈ selected))

/-- The JSON body `approveAndSubmit` posts to `/api/approve-and-submit`. -/
structure SubmitBody where
  session_id : String
  approved_entries : List DiaryEntry
  dry_run : Bool
deriving DecidableEq, Repr

/-- Embedding of the request `handleLaunch` sends: the session id, the
filtered approved entries, and the dry-run flag. -/
def handleLaunchBody (sessionId : String) (s : PreviewState) : SubmitBody :=
  ⟨sessionId, approvedEntries s.entries s.selected, s.dryRun⟩

end VTU

namespace VTU

/-- C3: the ability to launch depends only on the selected set and the
in-flight flag — two Preview states that differ only in their plausibility
report disable the launch action identically, and the action is disabled
exactly when the selection is empty or a launch is in flight. -/
theorem c3_plausibility_never_blocks (s₁ s₂ : PreviewState)
    (he : s₁.entries = s₂.entries) (hs : s₁.selected = s₂.selected)
    (hl : s₁.launching = s₂.launching) :
    launchDisabled s₁ = launchDisabled s₂ ∧
    (launchDisabled s₁ = true ↔ s₁.selected = ∅ ∨ s₁.launching = true) := by
  constructor
  · simp [launchDisabled, hs, hl]
  · simp [launchDisabled, Finset.card_eq_zero]

/-- Sample diary entry for witnesses. -/
def sampleEntry : DiaryEntry :=
  ⟨"e1", "2024-01-01", 8, "built parser", "learned lexing", "None", "",
    ["compilers"], 0.9, none, true⟩

/-- A high-scoring plausibility report. -/
def reportHigh : PlausibilityReport :=
  ⟨0.99, 0.9, ["entry 2024-01-01 repeats phrasing"], [⟨"2024-01-01", 0.99, []⟩]⟩

/-- A low-scoring plausibility report. -/
def reportLow : PlausibilityReport := ⟨0.1, 0.2, [], []⟩

/-- Witness for C3: two states identical but for their reports. -/
theorem c3_plausibility_never_blocks_witness :
    launchDisabled ⟨[sampleEntry], {"e1"}, false, false, reportHigh⟩ =
      launchDisabled ⟨[sampleEntry], {"e1"}, false, false, reportLow⟩ ∧
    (launchDisabled ⟨[sampleEntry], {"e1"}, false, false, reportHigh⟩ = true ↔
      ({"e1"} : Finset String) = ∅ ∨ (false : Bool) = true) :=
  c3_plausibility_never_blocks
    ⟨[sampleEntry], {"e1"}, false, false, reportHigh⟩
    ⟨[sampleEntry], {"e1"}, false, false, reportLow⟩ rfl rfl rfl

/-- C4: the submission request contains the session id, the dry-run flag,
and exactly the selected entries — an order-preserving sublist of the
(possibly edited) entry list whose members are precisely the entries whose
id is selected; unselected entries are never submitted. -/
theorem c4_submission_exact_subset (sessionId : String) (s : PreviewState) :
    (handleLaunchBody sessionId s).session_id = sessionId ∧
    (handleLaunchBody sessionId s).dry_run = s.dryRun ∧
    ((handleLaunchBody sessionId s).approved_entries).Sublist s.entries ∧
    (∀ e, e ∈ (handleLaunchBody sessionId s).approved_entries ↔
      e ∈ s.entries ∧ e.id ∈ s.selected) := by
  refine ⟨rfl, rfl, ?_, ?_⟩
  · simp only [handleLaunchBody, approvedEntries]
    exact List.filter_sublist s.entries
  · intro e
    simp [handleLaunchBody, approvedEntries, List.mem_filter]

end VTU

namespace VTU

/-! ## History page: retrying failed submissions (pages/History.tsx) -/

/-- Embedding of the `HistoryEntry` interface in `lib/api.ts`; fields the
retry handler guards against being absent are modelled as optional. -/
structure HistoryEntry where
  id : ℕ
  date : String
  hours : ℚ
  activities : String
  learnings : String
  blockers : Option String
  links : Option String
  skills : Option (List String)
  status : String
  confidence_score : Option ℚ
  submitted_at : String
deriving DecidableEq, Repr

/-- JS `v || d` on an optional string: `undefined` and `""` are falsy. -/
def jsOrStr (v : Option String) (d : String) : String :=
  match v with
  | none => d
  | some s => if s = "" then d else s

/-- JS `v || d` on an optional number: `undefined` and `0` are falsy. -/
def jsOrNum (v : Option ℚ) (d : ℚ) : ℚ :=
  match v with
  | none => d
  | some x => if x = 0 then d else x

/-- Embedding of the per-entry conversion in `handleRetryFailed`:
`HistoryEntry` → `DiaryEntry` with defaulted blockers, links, skills and
confidence. -/
def toDiaryEntry (e : HistoryEntry) : DiaryEntry where
  id := toString e.id
  date := e.date
  hours := e.hours
  activities := e.activities
  learnings := e.learnings
  blockers := jsOrStr e.blockers "None"
  links := jsOrStr e.links ""
  skills := e.skills.getD []
  confidence := jsOrNum e.confidence_score 0.8
  plausibility := none
  editable := true

/-- Embedding of `handleRetryFailed`: filter the history to entries with
status `failed`, then convert each to `DiaryEntry` form. -/
def handleRetryFailedEntries (history : List HistoryEntry) : List DiaryEntry :=
  (history.filter (fun e => decide (e.status = "failed"))).map toDiaryEntry

end VTU

namespace VTU

/-- C5: the retry job's entry sequence is an order-preserving selection of
converted history entries, a converted entry appears exactly when its
source entry has status `failed` (so no `success` entry is included), and
the conversion defaults absent blockers to `None`, absent links to the
empty string, and absent confidence to 0.8. -/
theorem c5_retry_only_failed (history : List HistoryEntry) :
    (handleRetryFailedEntries history).Sublist (history.map toDiaryEntry) ∧
    (∀ d, d ∈ handleRetryFailedEntries history ↔
      ∃ e, e ∈ history ∧ e.status = "failed" ∧ d = toDiaryEntry e) ∧
    (∀ e : HistoryEntry, e.blockers = none → (toDiaryEntry e).blockers = "None") ∧
    (∀ e : HistoryEntry, e.links = none → (toDiaryEntry e).links = "") ∧
    (∀ e : HistoryEntry, e.confidence_score = none →
      (toDiaryEntry e).confidence = 0.8) := by
  refine ⟨?_, ?_, ?_, ?_, ?_⟩
  · simp only [handleRetryFailedEntries]
    exact List.Sublist.map toDiaryEntry (List.filter_sublist history)
  · intro d
    simp only [handleRetryFailedEntries, List.mem_map, List.mem_filter,
      decide_eq_true_eq]
    constructor
    · rintro ⟨e, ⟨he, hf⟩, rfl⟩
      exact ⟨e, he, hf, rfl⟩
    · rintro ⟨e, he, hf, rfl⟩
      exact ⟨e, ⟨he, hf⟩, rfl⟩
  · intro e h
    simp [toDiaryEntry, jsOrStr, h]
  · intro e h
    simp [toDiaryEntry, jsOrStr, h]
  · intro e h
    simp [toDiaryEntry, jsOrNum, h]

/-- A failed history entry with absent optional fields. -/
def histFail : HistoryEntry :=
  ⟨7, "2024-01-02", 8, "built parser", "learned lexing", none, none, none,
    "failed", none, "2024-01-02T10:00:00"⟩

/-- A successful history entry. -/
def histSucc : HistoryEntry :=
  ⟨8, "2024-01-03", 6, "wrote tests", "learned CI", some "none",
    some "link", some ["ci"], "success", some (1/2), "2024-01-03T10:00:00"⟩

/-- Witness for C5: on a two-entry history the failed entry is retried with
defaulted fields. -/
theorem c5_retry_only_failed_witness :
    toDiaryEntry histFail ∈ handleRetryFailedEntries [histFail, histSucc] ∧
    (toDiaryEntry histFail).blockers = "None" ∧
    (toDiaryEntry histFail).links = "" ∧
    (toDiaryEntry histFail).confidence = 0.8 :=
  ⟨((c5_retry_only_failed [histFail, histSucc]).2.1 (toDiaryEntry histFail)).mpr
      ⟨histFail, by simp, rfl, rfl⟩,
    (c5_retry_only_failed [histFail, histSucc]).2.2.1 histFail rfl,
    (c5_retry_only_failed [histFail, histSucc]).2.2.2.1 histFail rfl,
    (c5_retry_only_failed [histFail, histSucc]).2.2.2.2 histFail rfl⟩

end VTU

namespace VTU

/-! ## Calendar picker (components/CalendarPicker.tsx) -/

/-- JS `Date.getDay()` for a day counted from the Unix epoch:
1970-01-01 was a Thursday (4); 0 is Sunday, 6 is Saturday. -/
def dayOfWeek (d : ℕ) : ℕ := (d + 4) % 7

/-- A day is a weekend day when `getDay()` is 0 (Sunday) or 6 (Saturday). -/
def isWeekend (d : ℕ) : Bool :=
  decide (dayOfWeek d = 0) || decide (dayOfWeek d = 6)

/-- CalendarPicker state: the selected days (a JS `Set` keyed by the day's
timestamp) and the last plainly clicked day. -/
structure ClickState where
  selected : Finset ℕ
  lastClicked : Option ℕ
deriving DecidableEq

/-- The inclusive day interval walked by the shift-click `while` loop. -/
def dayRange (s e : ℕ) : List ℕ :=
  (List.range (e + 1 - s)).map (fun i => s + i)

/-- Embedding of `handleDayClick`: a weekend click is dropped when
`skipWeekends` is set; shift-click with a previous click adds the whole
interval, skipping weekends when `skipWeekends` is set; a plain click
toggles the day and records it as last clicked. The `skipHolidays` prop is
received but never consulted. -/
def handleDayClick (skipWeekends skipHolidays shiftKey : Bool) (day : ℕ)
    (st : ClickState) : ClickState :=
  if skipWeekends && isWeekend day then st
  else
    match st.lastClicked, shiftKey with
    | some last, true =>
        let lo := min last day
        let hi := max last day
        let added := (dayRange lo hi).filter
          (fun d => !skipWeekends || !(isWeekend d))
        ⟨st.selected ∪ added.toFinset, st.lastClicked⟩
    | _, _ =>
        ⟨if day ∈ st.selected then st.selected.erase day
          else insert day st.selected, some day⟩

end VTU

namespace VTU

/-- C6 counterexample: 2024-01-01 (epoch day 19723, a Monday and a public
holiday) is clicked with both skip options enabled, yet it enters the
selected set — clicking a holiday is not a no-op, refuting the claim that
holiday dates are excluded from the selection. -/
theorem c6_holiday_click_counterexample :
    (handleDayClick true true false 19723 ⟨∅, none⟩).selected = {19723} ∧
    19723 ∈ (handleDayClick true true false 19723 ⟨∅, none⟩).selected := by
  constructor <;> decide

/-- C6 amended: with `skip_weekends` enabled, clicking a weekend day is a
no-op and no weekend day is ever added to the selection (by plain click or
shift-click range); the `skip_holidays` flag has no effect on the picker —
holiday dates are not excluded client-side. -/
theorem c6_weekends_excluded_holidays_ignored
    (sw sh sh' shift : Bool) (day : ℕ) (st : ClickState) :
    (sw = true → isWeekend day = true →
      handleDayClick sw sh shift day st = st) ∧
    (sw = true → ∀ d ∈ (handleDayClick sw sh shift day st).selected,
      d ∈ st.selected ∨ isWeekend d = false) ∧
    handleDayClick sw sh shift day st = handleDayClick sw sh' shift day st := by
  refine ⟨?_, ?_, rfl⟩
  · intro h1 h2
    simp [handleDayClick, h1, h2]
  · intro h1 d hd
    subst h1
    by_cases hw : isWeekend day
    · simp [handleDayClick, hw] at hd
      exact Or.inl hd
    · rcases hlc : st.lastClicked with _ | last <;> cases shift <;>
        simp [handleDayClick, hw, hlc] at hd
      all_goals
        first
        | (rcases hd with hd | hd
           · exact Or.inl hd
           · exact Or.inr (by simpa using hd.2))
        | (by_cases hmem : day ∈ st.selected
           · simp [hmem] at hd
             exact Or.inl hd.2
           · simp [hmem] at hd
             rcases hd with rfl | hd
             · exact Or.inr (by simpa using hw)
             · exact Or.inl hd)

/-- Witness for C6 amended: Sunday 2023-12-31 (epoch day 19722) is refused
with `skip_weekends` on, and flipping `skip_holidays` changes nothing. -/
theorem c6_weekends_excluded_holidays_ignored_witness :
    handleDayClick true true false 19722 ⟨∅, none⟩ = ⟨∅, none⟩ ∧
    (∀ d ∈ (handleDayClick true true false 19722 ⟨∅, none⟩).selected,
      d ∈ (⟨∅, none⟩ : ClickState).selected ∨ isWeekend d = false) ∧
    handleDayClick true true false 19722 ⟨∅, none⟩ =
      handleDayClick true false false 19722 ⟨∅, none⟩ :=
  ⟨(c6_weekends_excluded_holidays_ignored true true false false 19722
      ⟨∅, none⟩).1 rfl (by decide),
    (c6_weekends_excluded_holidays_ignored true true false false 19722
      ⟨∅, none⟩).2.1 rfl,
    (c6_weekends_excluded_holidays_ignored true true false false 19722
      ⟨∅, none⟩).2.2⟩

end VTU

namespace VTU

/-! ## Progress page polling (pages/Progress.tsx) -/

/-- Embedding of the `BrowserState` interface in `lib/api.ts`. -/
structure BrowserState where
  worker_id : ℕ
  status : String
  current_date : Option String
deriving DecidableEq, Repr

/-- Embedding of the `ProgressData` interface in `lib/api.ts`, including
the optional `browser_states` field reported by the Progress Channel. -/
structure ProgressData where
  total : ℕ
  completed : ℕ
  failed : ℕ
  current : String
  status : String
  browser_states : Option (List BrowserState)
deriving DecidableEq, Repr

/-- The three transient statuses the Progress page samples from. -/
def simStatus : Fin 3 → String
  | 0 => "navigating"
  | 1 => "filling"
  | 2 => "submitting"

/-- Embedding of the browser-state update inside `poll` in `Progress.tsx`:
while processing, each displayed worker gets a locally synthesized status
(idle past the end, otherwise a randomly sampled transient status and a
fabricated `Entry n` label); on completion every worker shows success. The
`rand` argument stands for `Math.random`. -/
def simulateBrowsers (data : ProgressData) (rand : ℕ → Fin 3)
    (prev : List BrowserState) : List BrowserState :=
  if data.status = "processing" then
    prev.mapIdx (fun i b =>
      if data.total ≤ data.completed + i then { b with status := "idle" }
      else
        { b with
            status := simStatus (rand i),
            current_date := some ("Entry " ++ toString (data.completed + i + 1)) })
  else if data.status = "completed" then
    prev.map (fun b => { b with status := "success", current_date := none })
  else prev

/-- A finished job whose Progress Channel reports a worker in `error`. -/
def progressDone : ProgressData :=
  ⟨1, 1, 0, "done", "completed", some [⟨0, "error", none⟩]⟩

end VTU

namespace VTU

/-- C7 counterexample: for a completed poll whose response's
`browser_states` reports worker 0 in `error`, the page displays worker 0
as `success` — the displayed per-worker states are not the Progress
Channel snapshots. -/
theorem c7_displayed_states_counterexample :
    progressDone.browser_states = some [⟨0, "error", none⟩] ∧
    simulateBrowsers progressDone (fun _ => 0) [⟨0, "idle", none⟩] =
      [⟨0, "success", none⟩] ∧
    some (simulateBrowsers progressDone (fun _ => 0) [⟨0, "idle", none⟩]) ≠
      progressDone.browser_states := by
  refine ⟨rfl, ?_, ?_⟩ <;> decide

/-- C7 amended: the per-worker states displayed by the Progress page are
synthesized client-side from `status`, `completed` and `total` alone — two
progress responses agreeing on those three fields display identical worker
states no matter what `browser_states` (or `failed`, `current`) say. -/
theorem c7_displayed_states_synthesized (d₁ d₂ : ProgressData)
    (rand : ℕ → Fin 3) (prev : List BrowserState)
    (ht : d₁.total = d₂.total) (hc : d₁.completed = d₂.completed)
    (hs : d₁.status = d₂.status) :
    simulateBrowsers d₁ rand prev = simulateBrowsers d₂ rand prev := by
  unfold simulateBrowsers
  simp only [ht, hc, hs]

/-- Witness for C7 amended: dropping the channel's `browser_states` from
the completed response leaves the displayed states unchanged. -/
theorem c7_displayed_states_synthesized_witness :
    simulateBrowsers progressDone (fun _ => 0) [⟨0, "idle", none⟩] =
      simulateBrowsers ⟨1, 1, 0, "done", "completed", none⟩ (fun _ => 0)
        [⟨0, "idle", none⟩] :=
  c7_displayed_states_synthesized progressDone
    ⟨1, 1, 0, "done", "completed", none⟩ (fun _ => 0) [⟨0, "idle", none⟩]
    rfl rfl rfl

end VTU

namespace VTU

/-! ## Upload page: date-range request (pages/Upload.tsx) -/

/-- Proleptic-Gregorian civil date (year, month, day) of a day count from
the Unix epoch, the standard days-to-civil algorithm used by date
libraries. -/
def civilFromDays (z0 : ℤ) : ℤ × ℤ × ℤ :=
  let z := z0 + 719468
  let era := Int.fdiv z 146097
  let doe := z - era * 146097
  let yoe := Int.fdiv
    (doe - Int.fdiv doe 1460 + Int.fdiv doe 36524 - Int.fdiv doe 146096) 365
  let y := yoe + era * 400
  let doy := doe - (365 * yoe + Int.fdiv yoe 4 - Int.fdiv yoe 100)
  let mp := Int.fdiv (5 * doy + 2) 153
  let d := doy - Int.fdiv (153 * mp + 2) 5 + 1
  let m := mp + (if mp < 10 then 3 else -9)
  (y + (if m ≤ 2 then 1 else 0), m, d)

/-- Zero-pad a month or day number to two digits. -/
def pad2 (n : ℤ) : String := if n < 10 then "0" ++ toString n else toString n

/-- Rendering of `format(d, ...)` with pattern `yyyy-MM-dd` for a day count
from the epoch. -/
def formatYMD (day : ℤ) : String :=
  let c := civilFromDays day
  toString c.1 ++ "-" ++ pad2 c.2.1 ++ "-" ++ pad2 c.2.2

/-- Calendar day holding a JS millisecond timestamp (timezone modelled as
a fixed zero offset). -/
def msToDay (ms : ℤ) : ℤ := Int.fdiv ms 86400000

/-- Formatted `yyyy-MM-dd` date of a millisecond timestamp. -/
def formatDateYMD (ms : ℤ) : String := formatYMD (msToDay ms)

/-- Embedding of the comparator sort in `handleGenerate`: sort the
selected timestamps ascending. -/
def sortTimes (ts : List ℤ) : List ℤ := ts.insertionSort (· ≤ ·)

/-- The two date-selection modes of the Upload page. -/
inductive DateMode
  | range
  | calendar
deriving DecidableEq, Repr

/-- Embedding of the `dateRange` string built in `handleGenerate`:
`"from to to"` in range mode; in calendar mode the selected timestamps
sorted ascending, each formatted `yyyy-MM-dd`, joined by commas. -/
def handleGenerateDateRange (mode : DateMode) (dFrom dTo : String)
    (ts : List ℤ) : String :=
  match mode with
  | .range => dFrom ++ " to " ++ dTo
  | .calendar => String.intercalate "," ((sortTimes ts).map formatDateYMD)

theorem msToDay_mono {a b : ℤ} (h : a ≤ b) : msToDay a ≤ msToDay b := by
  unfold msToDay
  rw [Int.fdiv_eq_ediv _ (by norm_num), Int.fdiv_eq_ediv _ (by norm_num)]
  exact Int.ediv_le_ediv (by norm_num) h

end VTU

namespace VTU

/-- C8 counterexample: the selection set is keyed by millisecond timestamp,
not by day — the reachable selection holding 2024-01-15T10:30 (the default
`new Date()` seed) and the clicked midnight 2024-01-15T00:00 produces the
request `2024-01-15,2024-01-15`, whose date list is not duplicate-free. -/
theorem c8_duplicate_dates_counterexample :
    handleGenerateDateRange DateMode.calendar "" ""
      [1705314600000, 1705276800000] = "2024-01-15,2024-01-15" ∧
    ¬ ((sortTimes [1705314600000, 1705276800000]).map formatDateYMD).Nodup := by
  constructor <;> decide

/-- C8 amended: the calendar-mode request sorts the selected timestamps
ascending and formats each as `yyyy-MM-dd` joined by commas; the resulting
date list is ascending, and it is duplicate-free provided the selected
timestamps fall on pairwise-distinct calendar days (which holds when all
stem from midnight calendar clicks, but not for the default now-timestamp);
range mode encodes the interval as `from to to`. -/
theorem c8_date_request_shape (dFrom dTo : String) (ts : List ℤ)
    (hdays : (ts.map msToDay).Nodup) :
    (sortTimes ts).Sorted (· ≤ ·) ∧
    ((sortTimes ts).map msToDay).Sorted (· ≤ ·) ∧
    ((sortTimes ts).map msToDay).Nodup ∧
    handleGenerateDateRange DateMode.calendar dFrom dTo ts =
      String.intercalate "," ((sortTimes ts).map formatDateYMD) ∧
    handleGenerateDateRange DateMode.range dFrom dTo ts =
      dFrom ++ " to " ++ dTo := by
  refine ⟨?_, ?_, ?_, rfl, rfl⟩
  · exact List.sorted_insertionSort (· ≤ ·) ts
  · exact List.Pairwise.map msToDay (fun a b hab => msToDay_mono hab)
      (List.sorted_insertionSort (· ≤ ·) ts)
  · exact (((List.perm_insertionSort (· ≤ ·) ts).map msToDay).nodup_iff).mpr hdays

/-- Witness for C8 amended: two midnight timestamps on distinct days. -/
theorem c8_date_request_shape_witness :
    (sortTimes [1705276800000, 1705190400000]).Sorted (· ≤ ·) ∧
    ((sortTimes [1705276800000, 1705190400000]).map msToDay).Sorted (· ≤ ·) ∧
    ((sortTimes [1705276800000, 1705190400000]).map msToDay).Nodup ∧
    handleGenerateDateRange DateMode.calendar "2024-01-01" "2024-01-31"
      [1705276800000, 1705190400000] =
      String.intercalate ","
        ((sortTimes [1705276800000, 1705190400000]).map formatDateYMD) ∧
    handleGenerateDateRange DateMode.range "2024-01-01" "2024-01-31"
      [1705276800000, 1705190400000] = "2024-01-01" ++ " to " ++ "2024-01-31" :=
  c8_date_request_shape "2024-01-01" "2024-01-31"
    [1705276800000, 1705190400000] (by decide)

end VTU

namespace VTU

/-! ## Credential persistence (lib/credentials.ts saveCredentials) -/

/-- One field of the object spread `{ ...existing, ...creds }`: the update
wins when it carries the property. -/
def mergeField (e c : Option String) : Option String :=
  match c with
  | some v => some v
  | none => e

/-- One field of the removal loop `if (merged[key] === '') delete`. -/
def stripEmpty (o : Option String) : Option String :=
  match o with
  | some "" => none
  | o => o

/-- Embedding of `saveCredentials`: spread-merge the stored and updated
credentials, then delete every key whose value is the empty string. -/
def saveCredentials (existing creds : Credentials) : Credentials where
  groq_api_key := stripEmpty (mergeField existing.groq_api_key creds.groq_api_key)
  gemini_api_key := stripEmpty (mergeField existing.gemini_api_key creds.gemini_api_key)
  cerebras_api_key := stripEmpty (mergeField existing.cerebras_api_key creds.cerebras_api_key)
  openai_api_key := stripEmpty (mergeField existing.openai_api_key creds.openai_api_key)
  llm_provider := stripEmpty (mergeField existing.llm_provider creds.llm_provider)
  vtu_username := stripEmpty (mergeField existing.vtu_username creds.vtu_username)
  vtu_password := stripEmpty (mergeField existing.vtu_password creds.vtu_password)

/-- The seven fields of a credential object, in declaration order. -/
def credFields (c : Credentials) : List (Option String) :=
  [c.groq_api_key, c.gemini_api_key, c.cerebras_api_key, c.openai_api_key,
    c.llm_provider, c.vtu_username, c.vtu_password]

theorem stripEmpty_ne_empty (o : Option String) : stripEmpty o ≠ some "" := by
  rcases o with _ | v
  · simp [stripEmpty]
  · by_cases h : v = "" <;> simp [stripEmpty, h]

theorem stripEmpty_of_ne (o : Option String) (h : o ≠ some "") :
    stripEmpty o = o := by
  rcases o with _ | v
  · rfl
  · rcases eq_or_ne v "" with rfl | hv
    · exact absurd rfl h
    · simp [stripEmpty, hv]

end VTU

namespace VTU

/-- C9: after `saveCredentials`, no stored field is the empty string, and a
field the update does not mention keeps its previously saved (non-empty)
value. -/
theorem c9_save_credentials_invariant (e c : Credentials)
    (hclean : ∀ v ∈ credFields e, v ≠ some "") :
    (∀ v ∈ credFields (saveCredentials e c), v ≠ some "") ∧
    (c.groq_api_key = none →
      (saveCredentials e c).groq_api_key = e.groq_api_key) ∧
    (c.gemini_api_key = none →
      (saveCredentials e c).gemini_api_key = e.gemini_api_key) ∧
    (c.cerebras_api_key = none →
      (saveCredentials e c).cerebras_api_key = e.cerebras_api_key) ∧
    (c.openai_api_key = none →
      (saveCredentials e c).openai_api_key = e.openai_api_key) ∧
    (c.llm_provider = none →
      (saveCredentials e c).llm_provider = e.llm_provider) ∧
    (c.vtu_username = none →
      (saveCredentials e c).vtu_username = e.vtu_username) ∧
    (c.vtu_password = none →
      (saveCredentials e c).vtu_password = e.vtu_password) := by
  refine ⟨?_, ?_, ?_, ?_, ?_, ?_, ?_, ?_⟩
  · intro v hv
    simp only [credFields, saveCredentials, List.mem_cons,
      List.not_mem_nil, or_false] at hv
    rcases hv with rfl | rfl | rfl | rfl | rfl | rfl | rfl <;>
      exact stripEmpty_ne_empty _
  all_goals
    intro h
    simp only [saveCredentials, mergeField, h]
    refine stripEmpty_of_ne _ (hclean _ ?_)
    simp [credFields]

/-- Witness for C9: a partial update (only a Groq key) against a stored
set that has a Gemini key; the Gemini key survives and nothing is empty. -/
theorem c9_save_credentials_invariant_witness :
    (∀ v ∈ credFields (saveCredentials
        ⟨none, some "gem", none, none, none, none, none⟩
        ⟨some "gk", none, none, none, none, none, none⟩), v ≠ some "") ∧
    (saveCredentials ⟨none, some "gem", none, none, none, none, none⟩
        ⟨some "gk", none, none, none, none, none, none⟩).gemini_api_key =
      some "gem" :=
  have h := c9_save_credentials_invariant
    ⟨none, some "gem", none, none, none, none, none⟩
    ⟨some "gk", none, none, none, none, none, none⟩ (by decide)
  ⟨h.1, h.2.2.1 rfl⟩

end VTU

namespace VTU

/-! ## Progress percentage (pages/Progress.tsx `pct`) -/

/-- JS `Math.round` on the non-negative values arising here:
round half away from zero is `⌊x + 1/2⌋` for `x ≥ 0`. -/
def jsRound (q : ℚ) : ℤ := ⌊q + 1 / 2⌋

/-- Embedding of
`pct = progress ? Math.round((progress.completed / Math.max(progress.total, 1)) * 100) : 0`. -/
def pctOf (progress : Option ProgressData) : ℤ :=
  match progress with
  | none => 0
  | some p => jsRound (((p.completed : ℚ) / ((max p.total 1 : ℕ) : ℚ)) * 100)

end VTU

namespace VTU

/-- C10: the displayed percentage is `round(100 * completed / max(total, 1))`,
the divisor is never zero, a snapshot with `total = 0` (hence `completed = 0`)
shows 0, and so does the initial missing snapshot. -/
theorem c10_pct_guarded (p : ProgressData) (h : p.completed ≤ p.total) :
    pctOf (some p) =
      jsRound (100 * (p.completed : ℚ) / ((max p.total 1 : ℕ) : ℚ)) ∧
    ((max p.total 1 : ℕ) : ℚ) ≠ 0 ∧
    (p.total = 0 → pctOf (some p) = 0) ∧
    pctOf none = 0 := by
  refine ⟨?_, ?_, ?_, rfl⟩
  · unfold pctOf jsRound
    congr 1
    ring
  · exact Nat.cast_ne_zero.mpr (Nat.one_le_iff_ne_zero.mp (le_max_right _ _))
  · intro ht
    have hc : p.completed = 0 := by omega
    simp [pctOf, jsRound, ht, hc]
    norm_num

/-- Witness for C10 at an empty snapshot. -/
theorem c10_pct_guarded_witness :
    pctOf (some ⟨0, 0, 0, "", "processing", none⟩) =
      jsRound (100 * ((0 : ℕ) : ℚ) / ((max (0 : ℕ) 1 : ℕ) : ℚ)) ∧
    ((max (0 : ℕ) 1 : ℕ) : ℚ) ≠ 0 ∧
    ((0 : ℕ) = 0 → pctOf (some ⟨0, 0, 0, "", "processing", none⟩) = 0) ∧
    pctOf none = 0 :=
  c10_pct_guarded ⟨0, 0, 0, "", "processing", none⟩ (by decide)

end VTU

namespace VTU

/-- Witness for C1 at the concrete score 0.9. -/
theorem c1_plausibility_bands_witness :
    (getPlausibilityLevel 0.9).label = bandLabel (specBand 0.9) ∧
    gaugeGetColor 0.9 = bandColor (specBand 0.9) ∧
    ((0.9 : ℚ) ≥ 0.95 → specBand 0.9 = 0) ∧
    (0.85 ≤ (0.9 : ℚ) ∧ (0.9 : ℚ) < 0.95 → specBand 0.9 = 1) ∧
    (0.70 ≤ (0.9 : ℚ) ∧ (0.9 : ℚ) < 0.85 → specBand 0.9 = 2) ∧
    (0.50 ≤ (0.9 : ℚ) ∧ (0.9 : ℚ) < 0.70 → specBand 0.9 = 3) ∧
    ((0.9 : ℚ) < 0.50 → specBand 0.9 = 4) :=
  c1_plausibility_bands 0.9

end VTU
